import Mathlib

/-!
Shallow embedding of the voice-interaction client:
the recorder hook (src/hooks/useVoiceRecorder.ts), the API orchestrator
(src/lib/api.ts, class VoiceInteractionAPI) and the page-level click
handler that chains the two remote stages.

Remote calls and platform facilities (audio decoding, device capture,
MIME support) are modelled as explicit environment parameters; the
functions below mirror the control flow of the TypeScript source
statement by statement.
-/

/-- A browser Blob: raw bytes plus a declared media type. -/
structure Blob where
  data : List Nat
  mimeType : String
deriving DecidableEq, Repr

/-- Blob.size, the byte count of the payload. -/
def Blob.size (b : Blob) : Nat := b.data.length

/-- A decoded audio buffer as exposed by decodeAudioData: frame count,
sample rate, channel count, and per-channel sample data (samples are
modelled as rationals in place of IEEE floats; the claims checked here
do not depend on float rounding). -/
structure AudioBuffer where
  length : Nat
  sampleRate : Nat
  numberOfChannels : Nat
  channelData : Nat → Nat → ℚ

/-- Little-endian bytes of a 16-bit unsigned write (DataView.setUint16
wraps the value modulo 2^16). -/
def u16le (v : Nat) : List Nat := [v % 256, v / 256 % 256]

/-- Little-endian bytes of a 32-bit unsigned write (DataView.setUint32
wraps the value modulo 2^32). -/
def u32le (v : Nat) : List Nat :=
  [v % 256, v / 256 % 256, v / 65536 % 256, v / 16777216 % 256]

/-- Bytes of an ASCII string as written by the writeString helper. -/
def strBytes (s : String) : List Nat := s.data.map Char.toNat

/-- The trim method of JS strings: strip leading and trailing
whitespace. -/
def jsTrim (s : String) : String :=
  ⟨((s.data.dropWhile Char.isWhitespace).reverse.dropWhile Char.isWhitespace).reverse⟩

/-- Little-endian bytes of a 16-bit signed write: the value is reduced
modulo 2^16 and stored as its two-complement byte pattern. -/
def i16le (x : Int) : List Nat := u16le (Int.toNat (Int.emod x 65536))

/-- Math.min on numbers (no NaN in the rational model). -/
def jsMin (a b : ℚ) : ℚ := if a ≤ b then a else b

/-- Math.max on numbers (no NaN in the rational model). -/
def jsMax (a b : ℚ) : ℚ := if a ≤ b then b else a

/-- Truncation toward zero, the integer conversion DataView.setInt16
applies to a fractional argument. -/
def ratTrunc (q : ℚ) : Int := Int.tdiv q.num (Int.ofNat q.den)

/-- One PCM sample as written by the loop of audioBufferToWav:
clamp to [-1, 1], scale by 0x7FFF, store as signed 16-bit LE. -/
def sampleBytes (q : ℚ) : List Nat :=
  i16le (ratTrunc (jsMax (-1) (jsMin 1 q) * 32767))

/-- The 44-byte RIFF/WAVE header exactly as audioBufferToWav writes it:
RIFF, chunk size 36 + 2L, WAVE, fmt chunk of size 16 with format tag 1,
the channel count of the buffer, the sample rate of the buffer, byte
rate sampleRate * 2, block align 2, bits per sample 16, then the data
chunk marker with size 2L. -/
def wavHeader (buffer : AudioBuffer) : List Nat :=
  strBytes "RIFF" ++ u32le (36 + buffer.length * 2) ++
  strBytes "WAVE" ++ strBytes "fmt " ++
  u32le 16 ++ u16le 1 ++ u16le buffer.numberOfChannels ++
  u32le buffer.sampleRate ++ u32le (buffer.sampleRate * 2) ++
  u16le 2 ++ u16le 16 ++
  strBytes "data" ++ u32le (buffer.length * 2)

/-- The PCM section of audioBufferToWav: the loop writes, for each frame
index i below the frame count, the 16-bit encoding of the sample of
channel 0 at i. -/
def pcmData (ch : Nat → ℚ) : Nat → List Nat
  | 0 => []
  | n + 1 => pcmData ch n ++ sampleBytes (ch n)

/-- audioBufferToWav from src/lib/api.ts lines 60-99: allocates
44 + 2L bytes, writes the header, then the channel-0 samples, and wraps
the buffer as an audio/wav Blob. -/
def audioBufferToWav (buffer : AudioBuffer) : Blob :=
  { data := wavHeader buffer ++ pcmData (buffer.channelData 0) buffer.length,
    mimeType := "audio/wav" }

/-- convertBlobToWav from src/lib/api.ts lines 37-58. The platform
decoder is an environment parameter; a decode failure is caught and the
promise resolves with the original blob unchanged. The promise has no
reject path. -/
def convertBlobToWav (decode : Blob → Option AudioBuffer) (audioBlob : Blob) : Blob :=
  match decode audioBlob with
  | some buffer => audioBufferToWav buffer
  | none => audioBlob

/-- An axios failure: an HTTP error response (status plus the optional
error message of the response body) or a client-side condition such as
the ECONNABORTED timeout code. -/
inductive AxiosFailure where
  | http (status : Nat) (errMessage : Option String)
  | econnAborted
  | networkOther
deriving DecidableEq, Repr

/-- An exception raised inside a try block: either an AxiosError from a
remote call or a plain Error thrown by the code itself. -/
inductive Thrown where
  | axios (f : AxiosFailure)
  | jsError (msg : String)
deriving DecidableEq, Repr

/-- Transcription response body: the text field. -/
structure TranscriptionData where
  text : String
deriving DecidableEq, Repr

/-- Token usage block of a chat completion response. -/
structure Usage where
  prompt_tokens : Nat
  completion_tokens : Nat
  total_tokens : Nat
deriving DecidableEq, Repr

/-- The message of one chat completion choice. -/
structure ChatMessage where
  content : String
deriving DecidableEq, Repr

/-- One candidate of a chat completion response. -/
structure Choice where
  message : ChatMessage
deriving DecidableEq, Repr

/-- Chat completion response body; the choices field may be absent. -/
structure ChatData where
  choices : Option (List Choice)
  usage : Option Usage
deriving DecidableEq, Repr

/-- GroqResponse as returned by transcribeAndProcess. -/
structure GroqResponse where
  text : String
  transcribedText : Option String
  usage : Option Usage
deriving DecidableEq, Repr

/-- Environment of transcribeAndProcess: the platform audio decoder and
the outcomes the two Groq endpoints would return if called. -/
structure GroqEnv where
  decode : Blob → Option AudioBuffer
  transcriptionResult : Except AxiosFailure TranscriptionData
  chatResult : Except AxiosFailure ChatData

/-- Result of running the try block of transcribeAndProcess, together
with which requests were issued and the audio attached to the
transcription form. -/
structure GroqAttempt where
  outcome : Except Thrown GroqResponse
  transcriptionRequested : Bool
  chatRequested : Bool
  audioSent : Option Blob

/-- The try block of transcribeAndProcess (src/lib/api.ts lines
106-176): convert the blob, post the transcription request, throw a
plain Error when the text is falsy or trims to length zero, post the
chat request, throw a plain Error when choices is absent or empty,
otherwise build the GroqResponse from the first choice. -/
def transcribeTryBody (env : GroqEnv) (blobIn : Blob) : GroqAttempt :=
  let wavBlob := convertBlobToWav env.decode blobIn
  match env.transcriptionResult with
  | .error f =>
      { outcome := .error (.axios f), transcriptionRequested := true,
        chatRequested := false, audioSent := some wavBlob }
  | .ok td =>
      if td.text = "" ∨ (jsTrim td.text).length = 0 then
        { outcome := .error (.jsError "No speech was detected in the audio. Please try speaking more clearly."),
          transcriptionRequested := true, chatRequested := false, audioSent := some wavBlob }
      else
        match env.chatResult with
        | .error f =>
            { outcome := .error (.axios f), transcriptionRequested := true,
              chatRequested := true, audioSent := some wavBlob }
        | .ok cd =>
            match cd.choices with
            | none =>
                { outcome := .error (.jsError "No response generated from AI model"),
                  transcriptionRequested := true, chatRequested := true, audioSent := some wavBlob }
            | some [] =>
                { outcome := .error (.jsError "No response generated from AI model"),
                  transcriptionRequested := true, chatRequested := true, audioSent := some wavBlob }
            | some (c :: _) =>
                { outcome := .ok { text := c.message.content,
                                   transcribedText := some td.text,
                                   usage := cd.usage },
                  transcriptionRequested := true, chatRequested := true, audioSent := some wavBlob }

/-- The catch block of transcribeAndProcess (src/lib/api.ts lines
177-194): AxiosError statuses 401, 429 and 400 and the ECONNABORTED
code map to their dedicated messages; every other exception, in
particular any plain Error thrown inside the try block, maps to the
generic failure message. -/
def groqCatch : Thrown → String
  | .axios (.http 401 _) => "Invalid Groq API key. Please check your API key and try again."
  | .axios (.http 429 _) => "Rate limit exceeded. Please wait a moment and try again."
  | .axios (.http 400 m) => "Groq API Error: " ++ m.getD "Bad request to Groq API"
  | .axios .econnAborted => "Request timeout. Please check your internet connection and try again."
  | _ => "Failed to process audio with Groq API. Please try again."

/-- Observable outcome of transcribeAndProcess: the value returned or
the message of the error thrown to the caller, plus the request trace. -/
structure GroqOutcome where
  result : Except String GroqResponse
  transcriptionRequested : Bool
  chatRequested : Bool
  audioSent : Option Blob

/-- transcribeAndProcess from src/lib/api.ts lines 101-195: the key
guard throws before the try block; inside it the try body runs and any
exception is translated by the catch block. -/
def transcribeAndProcess (groqApiKey : String) (env : GroqEnv) (blobIn : Blob) : GroqOutcome :=
  if groqApiKey = "" then
    { result := .error "Groq API key is not configured",
      transcriptionRequested := false, chatRequested := false, audioSent := none }
  else
    let a := transcribeTryBody env blobIn
    { result := match a.outcome with
        | .ok r => .ok r
        | .error t => .error (groqCatch t),
      transcriptionRequested := a.transcriptionRequested,
      chatRequested := a.chatRequested,
      audioSent := a.audioSent }

/-- ElevenLabsResponse: the object URL and the audio blob. -/
structure ElevenLabsResponse where
  audioUrl : String
  audioBlob : Blob
deriving DecidableEq, Repr

/-- The body posted to the text-to-speech endpoint (the fields the
claims are about). -/
structure TtsRequest where
  text : String
  modelId : String
deriving DecidableEq, Repr

/-- Environment of convertTextToSpeech: the outcome of the synthesis
endpoint and the URL.createObjectURL facility. -/
structure TtsEnv where
  responseData : Except AxiosFailure Blob
  createObjectURL : Blob → String

/-- Result of the try block of convertTextToSpeech plus the request
actually posted, if any. -/
structure TtsAttempt where
  outcome : Except Thrown ElevenLabsResponse
  request : Option TtsRequest

/-- The try block of convertTextToSpeech (src/lib/api.ts lines
206-243): the posted text is the substring of the first 2500
characters; an empty binary response raises a plain Error; otherwise
the bytes are wrapped as an audio/mpeg blob with an object URL. -/
def ttsTryBody (env : TtsEnv) (text : String) : TtsAttempt :=
  let req : TtsRequest := { text := text.take 2500, modelId := "eleven_monolingual_v1" }
  match env.responseData with
  | .error f => { outcome := .error (.axios f), request := some req }
  | .ok payload =>
      if payload.size = 0 then
        { outcome := .error (.jsError "Empty audio response received"), request := some req }
      else
        let blobOut : Blob := { data := payload.data, mimeType := "audio/mpeg" }
        { outcome := .ok { audioUrl := env.createObjectURL blobOut, audioBlob := blobOut },
          request := some req }

/-- The catch block of convertTextToSpeech (src/lib/api.ts lines
244-260). -/
def elevenCatch : Thrown → String
  | .axios (.http 401 _) => "Invalid ElevenLabs API key. Please check your API key and try again."
  | .axios (.http 429 _) => "ElevenLabs rate limit exceeded. Please wait a moment and try again."
  | .axios (.http 422 _) => "Invalid text input for speech synthesis."
  | .axios .econnAborted => "ElevenLabs request timeout. Please try again."
  | _ => "Failed to convert text to speech. Please try again."

/-- Observable outcome of convertTextToSpeech. -/
structure TtsOutcome where
  result : Except String ElevenLabsResponse
  request : Option TtsRequest

/-- convertTextToSpeech from src/lib/api.ts lines 197-261: the key and
empty-text guards throw before the try block; inside it the try body
runs and exceptions go through the catch block. -/
def convertTextToSpeech (elevenLabsApiKey : String) (text : String) (env : TtsEnv) : TtsOutcome :=
  if elevenLabsApiKey = "" then
    { result := .error "ElevenLabs API key is not configured", request := none }
  else if text = "" ∨ (jsTrim text).length = 0 then
    { result := .error "No text provided for speech synthesis", request := none }
  else
    let a := ttsTryBody env text
    { result := match a.outcome with
        | .ok r => .ok r
        | .error t => .error (elevenCatch t),
      request := a.request }

/-- Observable outcome of the page-level click handler. -/
structure ProcessOutcome where
  errorMsg : Option String
  responseText : String
  transcribedShown : String
  ttsRequested : Bool
  audioResponse : Option ElevenLabsResponse

/-- The handleProcessAudio click handler of the page component: run
transcribeAndProcess; on success show its texts and invoke
convertTextToSpeech; any thrown message becomes the error state and
aborts the rest of the chain. -/
def handleProcessAudioClick (groqKey elevenKey : String) (genv : GroqEnv) (tenv : TtsEnv)
    (maybeBlob : Option Blob) : ProcessOutcome :=
  match maybeBlob with
  | none => { errorMsg := none, responseText := "", transcribedShown := "",
              ttsRequested := false, audioResponse := none }
  | some b =>
      let o := transcribeAndProcess groqKey genv b
      match o.result with
      | .error msg =>
          { errorMsg := some msg, responseText := "", transcribedShown := "",
            ttsRequested := false, audioResponse := none }
      | .ok gr =>
          let t := convertTextToSpeech elevenKey gr.text tenv
          match t.result with
          | .error msg =>
              { errorMsg := some msg, responseText := gr.text,
                transcribedShown := gr.transcribedText.getD "",
                ttsRequested := true, audioResponse := none }
          | .ok resp =>
              { errorMsg := none, responseText := gr.text,
                transcribedShown := gr.transcribedText.getD "",
                ttsRequested := true, audioResponse := some resp }

/-- The MediaRecorder object held in mediaRecorderRef: its state string
(recording, paused or inactive) and the MIME type it was created
with. -/
structure MediaRec where
  recState : String
  mimeType : String
deriving DecidableEq, Repr

/-- State of the useVoiceRecorder hook: the four pieces of React state,
the three refs (recorder, stream, chunk buffer) and the timer ref.
The acquired field instruments device ownership: it lists the ids of
the capture streams obtained from getUserMedia whose tracks have not
been stopped yet; nextStreamId supplies fresh ids. -/
structure RecorderState where
  isRecording : Bool
  isPaused : Bool
  recordingTime : Nat
  audioBlob : Option Blob
  mediaRecorder : Option MediaRec
  streamRef : Option Nat
  chunks : List Blob
  timerOn : Bool
  acquired : List Nat
  nextStreamId : Nat
deriving DecidableEq, Repr

/-- Hook state before any interaction. -/
def initialRecorder : RecorderState :=
  { isRecording := false, isPaused := false, recordingTime := 0,
    audioBlob := none, mediaRecorder := none, streamRef := none,
    chunks := [], timerOn := false, acquired := [], nextStreamId := 0 }

/-- The MIME-type negotiation of startRecording (useVoiceRecorder.ts
lines 64-74): start from audio/webm with opus, drop to audio/webm, then
audio/mp4, and finally the empty string so the browser chooses. -/
def negotiateMimeType (isTypeSupported : String → Bool) : String :=
  if isTypeSupported "audio/webm;codecs=opus" then "audio/webm;codecs=opus"
  else if isTypeSupported "audio/webm" then "audio/webm"
  else if isTypeSupported "audio/mp4" then "audio/mp4"
  else ""

/-- startRecording (useVoiceRecorder.ts lines 44-133). Parameters model
the platform: the support flag, the MediaRecorder.isTypeSupported
predicate, and the getUserMedia outcome (none on success, otherwise the
DOMException name). Returns the new hook state and the message of the
error thrown, if any. On success the code stores the new stream and
recorder over whatever the refs held before, resets the chunk buffer,
marks recording, zeroes the elapsed time and starts the timer; it
neither checks isRecording nor stops a previously acquired stream, and
it does not reset isPaused. -/
def startRecording (isSupported : Bool) (isTypeSupported : String → Bool)
    (gum : Option String) (s : RecorderState) : RecorderState × Option String :=
  if !isSupported then
    (s, some "Audio recording is not supported in this browser")
  else
    match gum with
    | some name =>
        if name = "NotAllowedError" then
          (s, some "Microphone access denied. Please allow microphone access and try again.")
        else if name = "NotFoundError" then
          (s, some "No microphone found. Please connect a microphone and try again.")
        else if name = "NotSupportedError" then
          (s, some "Audio recording is not supported in this browser.")
        else (s, some name)
    | none =>
        let sid := s.nextStreamId
        let mt := negotiateMimeType isTypeSupported
        ({ s with
            streamRef := some sid,
            acquired := s.acquired ++ [sid],
            chunks := [],
            mediaRecorder := some { recState := "recording", mimeType := mt },
            isRecording := true,
            recordingTime := 0,
            timerOn := true,
            nextStreamId := sid + 1 }, none)

/-- The ondataavailable handler (useVoiceRecorder.ts lines 83-87): a
chunk is appended to the buffer only when its size is positive. -/
def dataAvailable (b : Blob) (s : RecorderState) : RecorderState :=
  if 0 < b.size then { s with chunks := s.chunks ++ [b] } else s

/-- The onstop handler (useVoiceRecorder.ts lines 89-105): concatenate
the buffered chunks into one blob typed with the negotiated MIME type
(or audio/webm when that was empty), publish it, stop the tracks of the
current stream and clear the stream ref. -/
def recorderOnStop (s : RecorderState) : RecorderState :=
  let mt := match s.mediaRecorder with
    | some mr => if mr.mimeType = "" then "audio/webm" else mr.mimeType
    | none => "audio/webm"
  let blob : Blob := { data := (s.chunks.map Blob.data).flatten, mimeType := mt }
  { s with
      audioBlob := some blob,
      acquired := match s.streamRef with
        | some sid => s.acquired.erase sid
        | none => s.acquired,
      streamRef := none }

/-- stopRecording (useVoiceRecorder.ts lines 135-142): when a recorder
exists and isRecording holds, stop it (which fires the onstop handler),
clear the recording and paused flags and stop the timer. -/
def stopRecording (s : RecorderState) : RecorderState :=
  if s.mediaRecorder.isSome && s.isRecording then
    let s1 := recorderOnStop s
    { s1 with
        isRecording := false, isPaused := false, timerOn := false,
        mediaRecorder := s1.mediaRecorder.map (fun mr => { mr with recState := "inactive" }) }
  else s

/-- pauseRecording (useVoiceRecorder.ts lines 144-152): only when a
recorder exists, isRecording holds, isPaused does not, and the recorder
state is recording, pause the recorder, set isPaused and stop the
timer. -/
def pauseRecording (s : RecorderState) : RecorderState :=
  match s.mediaRecorder with
  | some mr =>
      if s.isRecording && !s.isPaused && (mr.recState == "recording") then
        { s with
            mediaRecorder := some { mr with recState := "paused" },
            isPaused := true, timerOn := false }
      else s
  | none => s

/-- resumeRecording (useVoiceRecorder.ts lines 154-162): only when a
recorder exists, isRecording and isPaused hold, and the recorder state
is paused, resume the recorder, clear isPaused and restart the
timer. -/
def resumeRecording (s : RecorderState) : RecorderState :=
  match s.mediaRecorder with
  | some mr =>
      if s.isRecording && s.isPaused && (mr.recState == "paused") then
        { s with
            mediaRecorder := some { mr with recState := "recording" },
            isPaused := false, timerOn := true }
      else s
  | none => s

/-- One firing of the interval installed by startTimer (useVoiceRecorder.ts
lines 31-35): while the timer ref is set, each tick adds one second. -/
def timerTick (s : RecorderState) : RecorderState :=
  if s.timerOn then { s with recordingTime := s.recordingTime + 1 } else s

/-- clearRecording (useVoiceRecorder.ts lines 164-173): discard the
blob, reset the elapsed time and empty the chunk buffer. -/
def clearRecording (s : RecorderState) : RecorderState :=
  { s with audioBlob := none, recordingTime := 0, chunks := [] }

/-! ## Properties -/

/-- The descending preference list of encodings tried by startRecording. -/
def mimeTypePreference : List String :=
  ["audio/webm;codecs=opus", "audio/webm", "audio/mp4"]

/-- Spec-side restatement of the negotiation: the first supported entry
of the preference list, or the platform default (empty type) when none
is supported. -/
def negotiateMimeTypeSpec (isTypeSupported : String → Bool) : String :=
  (mimeTypePreference.find? isTypeSupported).getD ""

/-- Claim C8: media-type negotiation selects the first supported entry
of the descending preference list audio/webm with opus, audio/webm,
audio/mp4, and falls back to the empty platform-default type only when
none of the three is supported. -/
theorem c8_negotiation_first_supported (isTypeSupported : String → Bool) :
    negotiateMimeType isTypeSupported = negotiateMimeTypeSpec isTypeSupported := by
  unfold negotiateMimeType negotiateMimeTypeSpec mimeTypePreference
  by_cases h1 : isTypeSupported "audio/webm;codecs=opus" <;>
  by_cases h2 : isTypeSupported "audio/webm" <;>
  by_cases h3 : isTypeSupported "audio/mp4" <;>
  simp [List.find?, h1, h2, h3]

/-- Claim C6: when convertTextToSpeech proceeds past its guards, the
text posted to the synthesis endpoint is the 2500-character prefix:
exactly 2500 characters when the input is longer than 2500, and the
input unchanged when it is at most 2500. -/
theorem c6_tts_truncation (key text : String) (env : TtsEnv)
    (hk : ¬ key = "") (ht : ¬ (text = "" ∨ (jsTrim text).length = 0)) :
    (convertTextToSpeech key text env).request =
      some { text := text.take 2500, modelId := "eleven_monolingual_v1" } ∧
    (2500 < text.length → (text.take 2500).length = 2500) ∧
    (text.length ≤ 2500 → text.take 2500 = text) := by
  refine ⟨?_, ?_, ?_⟩
  · unfold convertTextToSpeech
    rw [if_neg hk, if_neg ht]
    unfold ttsTryBody
    rcases h : env.responseData with f | payload <;> simp [h]
    split <;> rfl
  · intro h
    rw [String.take_eq]
    show (text.1.take 2500).length = 2500
    rw [List.length_take]
    exact Nat.min_eq_left (Nat.le_of_lt h)
  · intro h
    rw [String.take_eq]
    show (⟨text.1.take 2500⟩ : String) = text
    rw [List.take_of_length_le h]

/-- Closed instance of claim C6 at a concrete short input. -/
theorem c6_tts_truncation_witness :
    (convertTextToSpeech "k" "hi" { responseData := .error .networkOther, createObjectURL := fun _ => "" }).request =
      some { text := "hi".take 2500, modelId := "eleven_monolingual_v1" } :=
  (c6_tts_truncation "k" "hi" _ (by decide) (by decide)).1

/-- A stereo decoded buffer: two channels, 16 kHz, two frames of
silence. -/
def stereoBuf : AudioBuffer :=
  { length := 2, sampleRate := 16000, numberOfChannels := 2, channelData := fun _ _ => 0 }

/-- Claim C3, counterexample: for a decoded buffer with two channels
the channel-count field of the WAV header (bytes 22 and 23) holds 2,
not the fixed value 1 the claim asserts. -/
theorem c3_counterexample :
    stereoBuf.numberOfChannels = 2 ∧
    ¬ (((audioBufferToWav stereoBuf).data.drop 22).take 2 = u16le 1) ∧
    ((audioBufferToWav stereoBuf).data.drop 22).take 2 = u16le 2 := by
  decide

set_option maxHeartbeats 2000000 in
/-- Claim C3 as amended: the WAV header declares the channel count
taken from the decoded buffer (so 1 exactly for mono buffers), the PCM
format tag 1, 16 bits per sample, and the sample rate taken from the
decoded buffer. -/
theorem c3_wav_header_fields (b : AudioBuffer) :
    ((audioBufferToWav b).data.drop 20).take 2 = u16le 1 ∧
    ((audioBufferToWav b).data.drop 22).take 2 = u16le b.numberOfChannels ∧
    ((audioBufferToWav b).data.drop 34).take 2 = u16le 16 ∧
    ((audioBufferToWav b).data.drop 24).take 4 = u32le b.sampleRate :=
  ⟨rfl, rfl, rfl, rfl⟩

/-- The header written by audioBufferToWav is 44 bytes long. -/
theorem wavHeader_length (b : AudioBuffer) : (wavHeader b).length = 44 := rfl

/-- The PCM section written by audioBufferToWav holds two bytes per
frame. -/
theorem pcmData_length (ch : Nat → ℚ) : ∀ n, (pcmData ch n).length = 2 * n := by
  intro n
  induction n with
  | zero => rfl
  | succ m ih =>
      unfold pcmData
      rw [List.length_append, ih]
      unfold sampleBytes i16le u16le
      simp
      omega

/-- Claim C10: the adapted WAV blob has size exactly 44 + 2L for a
buffer of L frames, whatever the channel count, and the data section
past the 44-byte header depends only on the samples of channel 0. -/
theorem c10_wav_size_and_channel0 (b b2 : AudioBuffer)
    (hL : b.length = b2.length) (hC : b.channelData 0 = b2.channelData 0) :
    (audioBufferToWav b).size = 44 + 2 * b.length ∧
    (audioBufferToWav b).data.drop 44 = (audioBufferToWav b2).data.drop 44 := by
  constructor
  · show (wavHeader b ++ pcmData (b.channelData 0) b.length).length = 44 + 2 * b.length
    rw [List.length_append, wavHeader_length, pcmData_length]
  · show (wavHeader b ++ pcmData (b.channelData 0) b.length).drop 44 =
      (wavHeader b2 ++ pcmData (b2.channelData 0) b2.length).drop 44
    rw [List.drop_left' (wavHeader_length b), List.drop_left' (wavHeader_length b2), hL, hC]

/-- Closed instance of claim C10: two one-frame buffers that agree on
channel 0 but differ on channel 1 yield the same data section. -/
theorem c10_witness :
    (audioBufferToWav { length := 1, sampleRate := 8000, numberOfChannels := 2, channelData := fun _ _ => 0 }).size = 44 + 2 * 1 ∧
    (audioBufferToWav { length := 1, sampleRate := 8000, numberOfChannels := 2, channelData := fun _ _ => 0 }).data.drop 44 =
    (audioBufferToWav { length := 1, sampleRate := 8000, numberOfChannels := 2, channelData := fun c _ => if c = 0 then 0 else 1 }).data.drop 44 :=
  c10_wav_size_and_channel0 _ _ rfl (by funext i; rfl)

/-- A support predicate declaring every MIME type supported. -/
def supAll : String → Bool := fun _ => true

/-- The scenario of claim C7: start, three ticks while recording,
pause, resume, two more ticks, stop. -/
def scenarioC7 : RecorderState :=
  let s1 := (startRecording true supAll none initialRecorder).1
  let s2 := timerTick (timerTick (timerTick s1))
  let s3 := pauseRecording s2
  let s4 := resumeRecording s3
  let s5 := timerTick (timerTick s4)
  stopRecording s5

/-- Claim C7: a tick adds exactly one second when the interval is
installed and nothing otherwise; pausing from an active recording stops
the interval without changing the elapsed time; stopping does not
change the elapsed time and leaves the interval stopped; and the
scenario start, three ticks, pause, resume, two ticks, stop yields an
elapsed time of exactly 5. -/
theorem c7_tick_discipline :
    (∀ s : RecorderState,
      (timerTick s).recordingTime = s.recordingTime + (if s.timerOn then 1 else 0)) ∧
    (∀ (s : RecorderState) (mr : MediaRec),
      s.mediaRecorder = some mr → s.isRecording = true → s.isPaused = false →
      mr.recState = "recording" →
      (pauseRecording s).timerOn = false ∧
      (pauseRecording s).recordingTime = s.recordingTime) ∧
    (∀ (s : RecorderState) (mr : MediaRec),
      s.mediaRecorder = some mr → s.isRecording = true →
      (stopRecording s).timerOn = false ∧
      (stopRecording s).recordingTime = s.recordingTime) ∧
    scenarioC7.recordingTime = 5 := by
  refine ⟨?_, ?_, ?_, by decide⟩
  · intro s
    by_cases h : s.timerOn <;> simp [timerTick, h]
  · intro s mr h hr hp hs
    simp [pauseRecording, h, hr, hp, hs]
  · intro s mr h hr
    simp [stopRecording, recorderOnStop, h, hr]

/-- A hook state in the middle of an active, unpaused recording. -/
def activeRecState : RecorderState :=
  { initialRecorder with
      isRecording := true,
      mediaRecorder := some { recState := "recording", mimeType := "audio/webm" },
      streamRef := some 0, acquired := [0], timerOn := true, nextStreamId := 1 }

/-- Closed instance of claim C7: pausing the concrete active state
stops the interval. -/
theorem c7_tick_discipline_witness : (pauseRecording activeRecState).timerOn = false :=
  (c7_tick_discipline.2.1 activeRecState
    { recState := "recording", mimeType := "audio/webm" } rfl rfl rfl rfl).1

/-- Claim C9: a zero-size chunk leaves the hook state unchanged, a
positive chunk is appended at the end of the buffer, any sequence of
chunk arrivals appends exactly its positive-size chunks in order, and
the artifact published at stop is the concatenation of the buffered
chunks. -/
theorem c9_chunk_buffer :
    (∀ (b : Blob) (s : RecorderState), b.size = 0 → dataAvailable b s = s) ∧
    (∀ (b : Blob) (s : RecorderState), 0 < b.size →
      (dataAvailable b s).chunks = s.chunks ++ [b]) ∧
    (∀ (events : List Blob) (s : RecorderState),
      (events.foldl (fun st b => dataAvailable b st) s).chunks =
        s.chunks ++ events.filter (fun b => decide (0 < b.size))) ∧
    (∀ (s : RecorderState) (mr : MediaRec),
      s.mediaRecorder = some mr → s.isRecording = true →
      (stopRecording s).audioBlob =
        some { data := (s.chunks.map Blob.data).flatten,
               mimeType := if mr.mimeType = "" then "audio/webm" else mr.mimeType }) := by
  refine ⟨?_, ?_, ?_, ?_⟩
  · intro b s hb
    simp [dataAvailable, hb]
  · intro b s hb
    simp [dataAvailable, hb]
  · intro events
    induction events with
    | nil => intro s; simp
    | cons b bs ih =>
        intro s
        rw [List.foldl_cons, ih (dataAvailable b s), List.filter_cons]
        by_cases hb : 0 < b.size
        · simp [dataAvailable, hb, List.append_assoc]
        · simp [dataAvailable, hb]
  · intro s mr h hr
    simp [stopRecording, recorderOnStop, h, hr]

/-- Closed instance of claim C9: a zero-size chunk arriving in the
initial state is not buffered. -/
theorem c9_chunk_buffer_witness :
    dataAvailable { data := [], mimeType := "audio/webm" } initialRecorder = initialRecorder :=
  c9_chunk_buffer.1 { data := [], mimeType := "audio/webm" } initialRecorder rfl

/-- The hook state after a first successful startRecording from the
initial state. -/
def c2FirstStart : RecorderState := (startRecording true supAll none initialRecorder).1

/-- A second startRecording issued while the first session is still
active, both getUserMedia acquisitions succeeding. -/
def c2SecondStart : RecorderState × Option String := startRecording true supAll none c2FirstStart

/-- Claim C2, refuted on the code: with the first session still active
(stream 0 acquired), a second startRecording neither throws nor stops
the previous session; it acquires stream 1 and leaves both capture
streams acquired at once, and the stop that follows releases only the
new stream, so stream 0 stays acquired forever. -/
theorem c2_double_start_leaks_stream :
    c2FirstStart.isRecording = true ∧
    c2FirstStart.acquired = [0] ∧
    c2SecondStart.2 = none ∧
    (c2SecondStart.1).acquired = [0, 1] ∧
    (c2SecondStart.1).streamRef = some 1 ∧
    (stopRecording c2SecondStart.1).acquired = [0] := by
  decide

/-- Claim C1, checked on the code: a whitespace-only transcription text
makes the try block throw before the chat request, so stage 2 is never
issued; but the catch block rewraps that plain Error, so the error
surfaced to the caller is the generic failure message, not the
no-speech message. -/
theorem c1_blank_transcription (key : String) (env : GroqEnv) (b : Blob)
    (hk : ¬ key = "") (ht : env.transcriptionResult = .ok { text := "   " }) :
    (transcribeAndProcess key env b).chatRequested = false ∧
    (transcribeAndProcess key env b).result =
      .error "Failed to process audio with Groq API. Please try again." ∧
    ¬ ((transcribeAndProcess key env b).result =
      .error "No speech was detected in the audio. Please try speaking more clearly.") := by
  have hbody : transcribeTryBody env b =
      { outcome := .error (.jsError "No speech was detected in the audio. Please try speaking more clearly."),
        transcriptionRequested := true, chatRequested := false,
        audioSent := some (convertBlobToWav env.decode b) } := by
    unfold transcribeTryBody
    rw [ht]
    dsimp only
    rw [if_pos (Or.inr (by decide))]
  have hmain : transcribeAndProcess key env b =
      { result := .error "Failed to process audio with Groq API. Please try again.",
        transcriptionRequested := true, chatRequested := false,
        audioSent := some (convertBlobToWav env.decode b) } := by
    unfold transcribeAndProcess
    rw [if_neg hk, hbody]
    rfl
  refine ⟨by rw [hmain], by rw [hmain], ?_⟩
  rw [hmain]
  intro h
  exact absurd (Except.error.inj h) (by decide)

/-- A concrete environment whose transcription stage returns
whitespace-only text. -/
def c1Env : GroqEnv :=
  { decode := fun _ => none,
    transcriptionResult := .ok { text := "   " },
    chatResult := .ok { choices := some [{ message := { content := "Hi" } }], usage := none } }

/-- Closed instance of claim C1 at the concrete environment. -/
theorem c1_blank_transcription_witness :
    (transcribeAndProcess "k" c1Env { data := [], mimeType := "audio/webm" }).chatRequested = false ∧
    (transcribeAndProcess "k" c1Env { data := [], mimeType := "audio/webm" }).result =
      .error "Failed to process audio with Groq API. Please try again." ∧
    ¬ ((transcribeAndProcess "k" c1Env { data := [], mimeType := "audio/webm" }).result =
      .error "No speech was detected in the audio. Please try speaking more clearly.") :=
  c1_blank_transcription "k" c1Env { data := [], mimeType := "audio/webm" } (by decide) rfl

/-- Claim C4, checked on the code: a chat response with missing or
empty choices makes the try block throw after stage 2, the catch block
rewraps the plain Error into the generic failure message (not the
missing-choices message), and the page handler therefore never invokes
the stage-3 speech synthesis call. -/
theorem c4_empty_choices (gkey ekey : String) (genv : GroqEnv) (tenv : TtsEnv)
    (b : Blob) (td : TranscriptionData) (cd : ChatData)
    (hk : ¬ gkey = "")
    (h1 : genv.transcriptionResult = .ok td)
    (h2 : ¬ (td.text = "" ∨ (jsTrim td.text).length = 0))
    (h3 : genv.chatResult = .ok cd)
    (h4 : cd.choices = none ∨ cd.choices = some []) :
    (transcribeAndProcess gkey genv b).chatRequested = true ∧
    (transcribeAndProcess gkey genv b).result =
      .error "Failed to process audio with Groq API. Please try again." ∧
    ¬ ((transcribeAndProcess gkey genv b).result =
      .error "No response generated from AI model") ∧
    (handleProcessAudioClick gkey ekey genv tenv (some b)).ttsRequested = false ∧
    (handleProcessAudioClick gkey ekey genv tenv (some b)).errorMsg =
      some "Failed to process audio with Groq API. Please try again." := by
  have hbody : transcribeTryBody genv b =
      { outcome := .error (.jsError "No response generated from AI model"),
        transcriptionRequested := true, chatRequested := true,
        audioSent := some (convertBlobToWav genv.decode b) } := by
    unfold transcribeTryBody
    rw [h1]
    dsimp only
    rw [if_neg h2, h3]
    dsimp only
    rcases h4 with h4 | h4 <;> rw [h4]
  have hmain : transcribeAndProcess gkey genv b =
      { result := .error "Failed to process audio with Groq API. Please try again.",
        transcriptionRequested := true, chatRequested := true,
        audioSent := some (convertBlobToWav genv.decode b) } := by
    unfold transcribeAndProcess
    rw [if_neg hk, hbody]
    rfl
  refine ⟨by rw [hmain], by rw [hmain], ?_, ?_, ?_⟩
  · rw [hmain]
    intro h
    exact absurd (Except.error.inj h) (by decide)
  · unfold handleProcessAudioClick
    dsimp only
    rw [hmain]
  · unfold handleProcessAudioClick
    dsimp only
    rw [hmain]

/-- A concrete environment whose chat stage returns an empty choices
list after a successful transcription. -/
def c4Env : GroqEnv :=
  { decode := fun _ => none,
    transcriptionResult := .ok { text := "Hello" },
    chatResult := .ok { choices := some [], usage := none } }

/-- A trivial synthesis environment for closed instances. -/
def ttsEnvStub : TtsEnv :=
  { responseData := .error .networkOther, createObjectURL := fun _ => "" }

/-- Closed instance of claim C4 at the concrete environment. -/
theorem c4_empty_choices_witness :
    (transcribeAndProcess "k" c4Env { data := [], mimeType := "audio/webm" }).chatRequested = true ∧
    (transcribeAndProcess "k" c4Env { data := [], mimeType := "audio/webm" }).result =
      .error "Failed to process audio with Groq API. Please try again." ∧
    ¬ ((transcribeAndProcess "k" c4Env { data := [], mimeType := "audio/webm" }).result =
      .error "No response generated from AI model") ∧
    (handleProcessAudioClick "k" "e" c4Env ttsEnvStub (some { data := [], mimeType := "audio/webm" })).ttsRequested = false ∧
    (handleProcessAudioClick "k" "e" c4Env ttsEnvStub (some { data := [], mimeType := "audio/webm" })).errorMsg =
      some "Failed to process audio with Groq API. Please try again." :=
  c4_empty_choices "k" "e" c4Env ttsEnvStub { data := [], mimeType := "audio/webm" }
    { text := "Hello" } { choices := some [], usage := none }
    (by decide) rfl (by decide) rfl (Or.inr rfl)

/-- Claim C5: whenever the platform decoder fails on the input blob,
convertBlobToWav resolves with the original blob unchanged; the
pipeline then attaches exactly those original bytes to the
transcription form; and for any decoder that fails on empty input, a
zero-byte artifact falls back to itself. -/
theorem c5_decode_failure_fallback (decode : Blob → Option AudioBuffer) (b : Blob)
    (hd : decode b = none) :
    convertBlobToWav decode b = b ∧
    (∀ (key : String) (env : GroqEnv), ¬ key = "" → env.decode = decode →
      (transcribeAndProcess key env b).audioSent = some b) ∧
    (∀ (d : Blob → Option AudioBuffer) (mt : String),
      (∀ bb : Blob, bb.size = 0 → d bb = none) →
      convertBlobToWav d { data := [], mimeType := mt } = { data := [], mimeType := mt }) := by
  have h1 : convertBlobToWav decode b = b := by
    unfold convertBlobToWav
    rw [hd]
  refine ⟨h1, ?_, ?_⟩
  · intro key env hk he
    have haud : (transcribeTryBody env b).audioSent = some (convertBlobToWav env.decode b) := by
      unfold transcribeTryBody
      cases henv : env.transcriptionResult with
      | error f => rfl
      | ok td =>
          dsimp only
          split
          · rfl
          · cases henv2 : env.chatResult with
            | error f2 => rfl
            | ok cd =>
                dsimp only
                cases hch : cd.choices with
                | none => rfl
                | some chs => cases chs <;> rfl
    unfold transcribeAndProcess
    rw [if_neg hk]
    dsimp only
    rw [haud, he, h1]
  · intro d mt hzero
    have hde : d { data := [], mimeType := mt } = none := hzero _ rfl
    unfold convertBlobToWav
    rw [hde]

/-- Closed instance of claim C5: a zero-byte blob under an
always-failing decoder falls back to itself. -/
theorem c5_decode_failure_fallback_witness :
    convertBlobToWav (fun _ => none) { data := [], mimeType := "audio/webm" } =
      { data := [], mimeType := "audio/webm" } :=
  (c5_decode_failure_fallback (fun _ => none) { data := [], mimeType := "audio/webm" } rfl).1

/-- Closed instance of claim C8 at the all-supporting platform. -/
theorem c8_negotiation_witness :
    negotiateMimeType supAll = negotiateMimeTypeSpec supAll :=
  c8_negotiation_first_supported supAll

/-- A mono decoded buffer used as closed instance for the amended
claim C3. -/
def monoBuf : AudioBuffer :=
  { length := 1, sampleRate := 16000, numberOfChannels := 1, channelData := fun _ _ => 0 }

/-- Closed instance of the amended claim C3 at a mono buffer. -/
theorem c3_wav_header_fields_witness :
    ((audioBufferToWav monoBuf).data.drop 22).take 2 = u16le monoBuf.numberOfChannels :=
  (c3_wav_header_fields monoBuf).2.1
